import Mathlib

/-!
Shallow embedding of the client-facing core of the BonsaiDb document database:
the named-entity entry (upsert) orchestrator with bounded conflict retry
(`crates/bonsaidb-core/src/schema/collection.rs`), the atomic numeric
key-value increment/decrement builders in their blocking and suspend/resume
forms (`crates/bonsaidb-core/src/keyvalue/implementation/increment.rs`),
named-reference resolution (`NamedCollection::load_document`), and the view
map-record emission helpers (`src/schema/document.rs`).

External collaborators (the storage server behind the connection capability)
are modelled as response oracles: the orchestrator's reads and writes are
answered by functions of the attempt index, so a schedule of injected
conflicts, reloads and deletions can be described as data.  Ghost
instrumentation (lists of mutator inputs, insert-producer call counts,
pushed contents, submitted key operations) records the observable calls the
code makes without altering its control flow.
-/

/-- A document header: id plus revision, as carried by conflict errors and
returned by successful writes.  `DocumentId` and `Revision` are modelled as
naturals; their internal structure is irrelevant to the orchestration logic. -/
structure Header where
  id : Nat
  revision : Nat
  deriving DecidableEq, Repr

/-- `CollectionDocument { header, contents }`: the deserialized view of a
stored document for a collection whose contents type is `C`. -/
structure CollectionDocument (C : Type) where
  header : Header
  contents : C
  deriving DecidableEq, Repr

/-- The error taxonomy crossing the connection boundary, as matched by
`Entry::execute`: `Error::DocumentConflict(collection, header)` is the only
variant inspected; everything else is propagated unchanged.  `serialization`
and `other` stand for the remaining variants of `bonsaidb_core::Error`. -/
inductive DbError where
  | documentConflict (collection : String) (header : Header)
  | serialization (message : String)
  | other (message : String)
  deriving DecidableEq, Repr

/-- `NamedReference`: a name, a document id, or a primary key.  Ids and keys
are modelled as naturals. -/
inductive NamedReference where
  | name (s : String)
  | id (i : Nat)
  | key (k : Nat)
  deriving DecidableEq, Repr

/-- Oracle for the connection capability as used by `Entry::execute`.
`load` answers the initial `Col::load(name, connection)`.  `write` answers
the conditioned write `existing.update(connection)` on the given attempt
(0-indexed), returning the committed header or an error; indexing by attempt
models the server state evolving between attempts.  `reload` answers
`Col::load(header.id, connection)` after the conflict on the given attempt.
`push` answers `Col::push(new_document, connection)`. -/
structure EntryConnection (C : Type) where
  load : NamedReference → Except DbError (Option (CollectionDocument C))
  write : Nat → CollectionDocument C → Except DbError Header
  reload : Nat → Nat → Except DbError (Option (CollectionDocument C))
  push : C → Except DbError (CollectionDocument C)

/-- Ghost trace of one `Entry::execute` run: the result, the contents each
update-mutator invocation was applied to (in order), the number of
insert-producer invocations, and the contents handed to `Col::push`. -/
structure ExecTrace (C : Type) where
  result : Except DbError (Option (CollectionDocument C))
  updateCalls : List C
  insertCalls : Nat
  pushCalls : List C

/-- The retry loop of `Entry::execute` (collection.rs lines 908-927): apply
the mutator to the current contents, attempt the conditioned write; on
success return the updated document; on `DocumentConflict`, if
`retry_limit > 0` decrement it and reload by the conflict header's id —
a missing document ends the loop with the empty result, a found one retries;
with the budget exhausted the conflict is surfaced; any other error breaks
the loop unchanged.  The mutator is modelled purely: `u` maps the contents
it is invoked on to the mutated contents, and the list in the result records
each invocation's input. -/
def updateLoop {C : Type} (conn : EntryConnection C) (u : C → C) :
    Nat → Nat → CollectionDocument C →
    Except DbError (Option (CollectionDocument C)) × List C
  | attempt, retryLimit, existing =>
    match conn.write attempt { existing with contents := u existing.contents } with
    | .ok newHeader =>
      (.ok (some ⟨newHeader, u existing.contents⟩), [existing.contents])
    | .error (.documentConflict collection header) =>
      match retryLimit with
      | Nat.succ n =>
        match conn.reload attempt header.id with
        | .ok (some doc) =>
          let rest := updateLoop conn u (attempt + 1) n doc
          (rest.1, existing.contents :: rest.2)
        | .ok none => (.ok none, [existing.contents])
        | .error e => (.error e, [existing.contents])
      | 0 => (.error (.documentConflict collection header), [existing.contents])
    | .error e => (.error e, [existing.contents])

/-- `Entry::execute` (collection.rs lines 899-937): load the target; if found
and an update-mutator is configured, run the retry loop; if found without a
mutator, return the document unchanged; if absent and an insert-producer is
configured, invoke it once and push the produced contents; otherwise return
the empty result. -/
def Entry.execute {C : Type} (conn : EntryConnection C) (name : NamedReference)
    (insert : Option (Unit → C)) (update : Option (C → C))
    (retry_limit : Nat) : ExecTrace C :=
  match conn.load name with
  | .error e => ⟨.error e, [], 0, []⟩
  | .ok (some existing) =>
    match update with
    | some u =>
      let r := updateLoop conn u 0 retry_limit existing
      ⟨r.1, r.2, 0, []⟩
    | none => ⟨.ok (some existing), [], 0, []⟩
  | .ok none =>
    match insert with
    | some ins =>
      let newDocument := ins ()
      match conn.push newDocument with
      | .ok doc => ⟨.ok (some doc), [], 1, [newDocument]⟩
      | .error e => ⟨.error e, [], 1, [newDocument]⟩
    | none => ⟨.ok none, [], 0, []⟩

/-- The builder state assembled by `NamedCollection::entry` and the
`Entry` configuration methods: target reference, optional insert-producer,
optional update-mutator, retry budget. -/
structure EntryBuilder (C : Type) where
  name : NamedReference
  insert : Option (Unit → C)
  update : Option (C → C)
  retry_limit : Nat

/-- `NamedCollection::entry` (collection.rs lines 658-681): a fresh pending
builder with no insert-producer, no update-mutator, and `retry_limit: 0`. -/
def NamedCollection.entry {C : Type} (name : NamedReference) : EntryBuilder C :=
  { name := name, insert := none, update := none, retry_limit := 0 }

/-- `Entry::or_insert_with`: installs the insert-producer, preserving name,
update-mutator and retry budget. -/
def EntryBuilder.or_insert_with {C : Type} (b : EntryBuilder C) (cb : Unit → C) :
    EntryBuilder C :=
  { b with insert := some cb }

/-- `Entry::update_with`: installs the update-mutator, preserving name,
insert-producer and retry budget. -/
def EntryBuilder.update_with {C : Type} (b : EntryBuilder C) (cb : C → C) :
    EntryBuilder C :=
  { b with update := some cb }

/-- `Entry::retry_limit`: sets the retry budget on the pending builder. -/
def EntryBuilder.with_retry_limit {C : Type} (b : EntryBuilder C) (attempts : Nat) :
    EntryBuilder C :=
  { b with retry_limit := attempts }

/-- Driving a pending `Entry` future to completion: the `poll` implementation
(collection.rs lines 1074-1098) takes the builder and runs
`Self::execute(name, connection, insert, update, retry_limit)`. -/
def EntryBuilder.run {C : Type} (conn : EntryConnection C) (b : EntryBuilder C) :
    ExecTrace C :=
  Entry.execute conn b.name b.insert b.update b.retry_limit

/-- Modelled from the spec: the `Numeric` payload of key-value increment and
decrement commands (an unsigned, signed, or floating numeric subtype; its
definition lives outside the excerpted sources).  The orchestration code
carries it opaquely, so only a few concrete representatives are needed. -/
inductive Numeric where
  | unsignedInteger (v : Nat)
  | signedInteger (v : Int)
  deriving DecidableEq, Repr

/-- The key-value commands submitted by the increment/decrement builders. -/
inductive Command where
  | increment (amount : Numeric) (saturating : Bool)
  | decrement (amount : Numeric) (saturating : Bool)
  deriving DecidableEq, Repr

/-- `KeyOperation { namespace, key, command }` as submitted to
`execute_key_operation`.  The `namespace` field is named `ns` because
`namespace` is reserved in Lean. -/
structure KeyOperation where
  ns : Option String
  key : String
  command : Command
  deriving DecidableEq, Repr

/-- Modelled from the spec: the `Value` stored under a key — numeric or raw
bytes; only the `Numeric` variant is inspected by the builders. -/
inductive Value where
  | numeric (n : Numeric)
  | bytes (b : List Nat)
  deriving DecidableEq, Repr

/-- Modelled from the spec: the `Output` of `execute_key_operation`; the
builders match on `Output::Value(Some(Value::Numeric(_)))` and treat every
other shape as unreachable.  `status` stands for the non-`Value` variant. -/
inductive Output where
  | status (ok : Bool)
  | value (v : Option Value)
  deriving DecidableEq, Repr

/-- Observable outcome of one builder execution: a converted value, a
recoverable error propagated from the connection, or a panic (the
`expect`/`unreachable!` sites), tagged by the panic message. -/
inductive KvOutcome (V : Type) where
  | ok (v : V)
  | err (e : DbError)
  | panicked (message : String)
  deriving DecidableEq, Repr

/-- The connection capability consumed by the numeric builders: one
`execute_key_operation` call per submitted operation. -/
abbrev KvConnection : Type := KeyOperation → Except DbError Output

/-- The blocking `Builder` (increment.rs lines 14-22): namespace, key,
direction flag, amount, saturating flag.  The `kv` connection reference is
supplied at execution time.  `V` is the numeric type requested by the
caller. -/
structure Builder (V : Type) where
  ns : Option String
  key : String
  increment : Bool
  amount : Numeric
  saturating : Bool

/-- `Builder::new` (increment.rs lines 29-45): always starts with
`saturating: true`. -/
def Builder.new (V : Type) (ns : Option String) (increment : Bool)
    (key : String) (amount : Numeric) : Builder V :=
  { ns := ns, key := key, increment := increment, amount := amount,
    saturating := true }

/-- `Builder::allow_overflow`: flips `saturating` to `false`. -/
def Builder.allow_overflow {V : Type} (b : Builder V) : Builder V :=
  { b with saturating := false }

/-- `Builder::execute` (increment.rs lines 54-78): submit one `KeyOperation`
whose command is `Increment`/`Decrement { amount, saturating }`, then map the
connection's output — a numeric value convertible to `V` (via `tryFrom`,
modelling `V::TryFrom<Numeric>`) yields `Ok`; a failed conversion panics with
the `expect` message and any other output shape hits `unreachable!`.  The
returned list is the ghost log of operations submitted. -/
def Builder.execute {V : Type} (kv : KvConnection) (tryFrom : Numeric → Option V)
    (b : Builder V) : List KeyOperation × KvOutcome V :=
  let op : KeyOperation :=
    { ns := b.ns, key := b.key,
      command :=
        if b.increment then Command.increment b.amount b.saturating
        else Command.decrement b.amount b.saturating }
  let outcome : KvOutcome V :=
    match kv op with
    | .error e => .err e
    | .ok result =>
      match result with
      | .value (some (.numeric v)) =>
        match tryFrom v with
        | some value => .ok value
        | none => .panicked "server should send back identical type"
      | _ => .panicked "Unexpected result from key value operation"
  ([op], outcome)

/-- The `Options` captured by the pending async builder (increment.rs lines
88-95). -/
structure Options (V : Type) where
  ns : Option String
  key : String
  increment : Bool
  amount : Numeric
  saturating : Bool

/-- `BuilderState`: the suspend/resume builder is pending with its options,
or executing with an in-flight future.  The future is modelled by the value
it resolves to: the ghost operation log together with the outcome. -/
inductive BuilderState (V : Type) where
  | pending (opts : Option (Options V))
  | executing (submitted : List KeyOperation) (outcome : KvOutcome V)

/-- The suspend/resume `AsyncBuilder` (increment.rs lines 84-86). -/
structure AsyncBuilder (V : Type) where
  state : BuilderState V

/-- `AsyncBuilder::new` (increment.rs lines 101-118): pending options with
`saturating: true`. -/
def AsyncBuilder.new (V : Type) (ns : Option String) (increment : Bool)
    (key : String) (amount : Numeric) : AsyncBuilder V :=
  { state := .pending (some { ns := ns, key := key, increment := increment,
                              amount := amount, saturating := true }) }

/-- `AsyncBuilder::allow_overflow`: flips `saturating` on the pending
options; `none` models the `options()` panic ("Attempted to use after
retrieving the result") when the builder is no longer pending. -/
def AsyncBuilder.allow_overflow {V : Type} (b : AsyncBuilder V) :
    Option (AsyncBuilder V) :=
  match b.state with
  | .pending (some opts) =>
    some { state := .pending (some { opts with saturating := false }) }
  | _ => none

/-- `AsyncBuilder`'s `Future::poll` (increment.rs lines 142-181): when
executing, return the future's result; when pending, take the options, build
and submit the identical `KeyOperation`, map the output exactly as the
blocking path does, store the in-flight result and poll it.  Returns the
next state and the resolved (operation log, outcome) pair. -/
def AsyncBuilder.poll {V : Type} (kv : KvConnection) (tryFrom : Numeric → Option V)
    (b : AsyncBuilder V) : AsyncBuilder V × (List KeyOperation × KvOutcome V) :=
  match b.state with
  | .executing submitted outcome => (b, (submitted, outcome))
  | .pending (some opts) =>
    let op : KeyOperation :=
      { ns := opts.ns, key := opts.key,
        command :=
          if opts.increment then Command.increment opts.amount opts.saturating
          else Command.decrement opts.amount opts.saturating }
    let outcome : KvOutcome V :=
      match kv op with
      | .error e => .err e
      | .ok result =>
        match result with
        | .value (some (.numeric v)) =>
          match tryFrom v with
          | some value => .ok value
          | none => .panicked "server should send back identical type"
        | _ => .panicked "Unexpected result from key value operation"
    ({ state := .executing [op] outcome }, ([op], outcome))
  | .pending none => (b, ([], .panicked "expected builder to have options"))

/-- A raw stored document as returned by name resolution, before
deserialization.  Contents are opaque bytes. -/
structure OwnedDocument where
  id : Nat
  revision : Nat
  contents : List Nat
  deriving DecidableEq, Repr

/-- Oracle for the connection calls made by `NamedCollection::load_document`:
`get` answers `connection.collection::<Self>().get(id)`, and
`viewQueryWithDocs` answers
`connection.view::<Self::ByNameView>().with_key(name).query_with_docs()`,
returning the view's (key, document) records in view order. -/
structure NamedConnection where
  get : Nat → Except DbError (Option OwnedDocument)
  viewQueryWithDocs : String → Except DbError (List (String × OwnedDocument))

/-- `NamedCollection::load_document` (collection.rs lines 686-710): `Id` and
`Key` references resolve by direct `get`; a `Name` issues one query against
the by-name view with that name as key and takes the first returned record,
dropping the rest.  The second component is the ghost log of view-query keys
issued. -/
def NamedCollection.load_document (conn : NamedConnection) :
    NamedReference → Except DbError (Option OwnedDocument) × List String
  | .id i => (conn.get i, [])
  | .key k => (conn.get k, [])
  | .name n =>
    match conn.viewQueryWithDocs n with
    | .ok results => (.ok ((results.head?).map Prod.snd), [n])
    | .error e => (.error e, [n])

/-- The pliantdb `Document` (`src/schema/document.rs` lines 9-20): id
(a UUID, modelled as a natural), revision, and serialized contents bytes. -/
structure Document where
  id : Nat
  revision : Nat
  contents : List Nat
  deriving DecidableEq, Repr

/-- A view `Map` record: the producing document's id plus emitted key and
value. -/
structure Map (K V : Type) where
  source : Nat
  key : K
  value : V
  deriving DecidableEq, Repr

/-- `Document::emit_key_and_value` (document.rs lines 76-87). -/
def Document.emit_key_and_value {K V : Type} (d : Document) (key : K) (value : V) :
    Map K V :=
  { source := d.id, key := key, value := value }

/-- `Document::emit` (document.rs lines 57-60). -/
def Document.emit (d : Document) : Map Unit Unit :=
  d.emit_key_and_value () ()

/-- `Document::emit_key` (document.rs lines 63-66). -/
def Document.emit_key {K : Type} (d : Document) (key : K) : Map K Unit :=
  d.emit_key_and_value key ()

/-- `Document::emit_value` (document.rs lines 69-72). -/
def Document.emit_value {V : Type} (d : Document) (value : V) : Map Unit V :=
  d.emit_key_and_value () value

/-- Helper: the expected mutator-input log starting at offset `a` peels off
its head. -/
theorem docsLog_shift {C : Type} (docs : Nat → CollectionDocument C) (m a : Nat) :
    ((List.range (m + 1)).map fun k => (docs (a + k)).contents) =
      (docs a).contents :: ((List.range m).map fun k => (docs (a + 1 + k)).contents) := by
  rw [List.range_succ_eq_map, List.map_cons, List.map_map]
  simp only [Nat.add_zero]
  have e : ((fun k => (docs (a + k)).contents) ∘ Nat.succ) =
      fun k => (docs (a + 1 + k)).contents := by
    funext k
    simp only [Function.comp_apply]
    have e2 : a + Nat.succ k = a + 1 + k := by omega
    rw [e2]
  rw [e]

/-- Helper: under a schedule that injects a conflict on each of the first `b`
write attempts (counting from attempt `a`), reloads the documents `docs`, and
commits on attempt `a + b`, the retry loop returns the document updated from
the last reload, and the mutator-input log is exactly the loaded contents in
order. -/
theorem updateLoop_conflict_schedule {C : Type} (conn : EntryConnection C)
    (u : C → C) (coll : Nat → String) (hdr : Nat → Header)
    (docs : Nat → CollectionDocument C) (finalHeader : Header) :
    ∀ b a : Nat,
      (∀ k, k < b → ∀ d, conn.write (a + k) d =
          .error (.documentConflict (coll (a + k)) (hdr (a + k)))) →
      (∀ k, k < b → conn.reload (a + k) (hdr (a + k)).id =
          .ok (some (docs (a + k + 1)))) →
      (∀ d, conn.write (a + b) d = .ok finalHeader) →
      updateLoop conn u a b (docs a) =
        (.ok (some ⟨finalHeader, u (docs (a + b)).contents⟩),
          (List.range (b + 1)).map fun k => (docs (a + k)).contents) := by
  intro b
  induction b with
  | zero =>
    intro a _ _ hsucc
    have hw := hsucc { docs a with contents := u (docs a).contents }
    simp only [Nat.add_zero] at hw ⊢
    simp [updateLoop, hw, List.range_succ]
  | succ n ih =>
    intro a hconf hrel hsucc
    have hw := hconf 0 (Nat.succ_pos n) { docs a with contents := u (docs a).contents }
    have hr := hrel 0 (Nat.succ_pos n)
    simp only [Nat.add_zero] at hw hr
    have ih' := ih (a + 1)
      (fun k hk d => by
        have e : a + 1 + k = a + (k + 1) := by omega
        rw [e]
        exact hconf (k + 1) (by omega) d)
      (fun k hk => by
        have e : a + 1 + k = a + (k + 1) := by omega
        rw [e]
        exact hrel (k + 1) (by omega))
      (fun d => by
        have e : a + 1 + n = a + (n + 1) := by omega
        rw [e]
        exact hsucc d)
    simp only [updateLoop, hw, hr, ih']
    refine Prod.ext ?_ ?_
    · have e : a + 1 + n = a + (n + 1) := by omega
      rw [e]
    · exact (docsLog_shift docs (n + 1) a).symm

/-- C1: with retry budget `N`, when the entry orchestrator finds the target
document and an update-mutator is configured, and the conditioned write
conflicts on each of the first `N` attempts (reloading the evolving document
`docs`) and commits on attempt `N + 1`, the orchestrator returns the updated
document; the update-mutator runs at most `N + 1` times, each invocation on
the most recently loaded contents. -/
theorem claim_C1_bounded_retry_success {C : Type} (conn : EntryConnection C)
    (nameRef : NamedReference) (ins : Option (Unit → C)) (u : C → C)
    (coll : Nat → String) (hdr : Nat → Header)
    (docs : Nat → CollectionDocument C) (finalHeader : Header) (N : Nat)
    (hload : conn.load nameRef = .ok (some (docs 0)))
    (hconf : ∀ k, k < N → ∀ d, conn.write k d =
        .error (.documentConflict (coll k) (hdr k)))
    (hrel : ∀ k, k < N → conn.reload k (hdr k).id = .ok (some (docs (k + 1))))
    (hsucc : ∀ d, conn.write N d = .ok finalHeader) :
    Entry.execute conn nameRef ins (some u) N =
      { result := .ok (some ⟨finalHeader, u (docs N).contents⟩),
        updateCalls := (List.range (N + 1)).map fun k => (docs k).contents,
        insertCalls := 0, pushCalls := [] } ∧
    ((List.range (N + 1)).map fun k => (docs k).contents).length ≤ N + 1 := by
  have hloop := updateLoop_conflict_schedule conn u coll hdr docs finalHeader N 0
    (fun k hk d => by simpa using hconf k hk d)
    (fun k hk => by simpa using hrel k hk)
    (fun d => by simpa using hsucc d)
  simp only [Nat.zero_add] at hloop
  constructor
  · simp [Entry.execute, hload, hloop]
  · simp

/-- Concrete three-attempt schedule for the C1 witness: the document for
"alice" evolves through revisions 0, 1, 2 while two conflicts are injected,
and the third write commits. -/
def c1Docs : Nat → CollectionDocument Nat := fun k => ⟨⟨1, k⟩, 10 * k⟩

/-- Concrete connection oracle for the C1 witness. -/
def c1Conn : EntryConnection Nat where
  load := fun _ => .ok (some (c1Docs 0))
  write := fun k _ =>
    if k < 2 then .error (.documentConflict "users" ⟨1, k⟩) else .ok ⟨1, 99⟩
  reload := fun k _ => .ok (some (c1Docs (k + 1)))
  push := fun c => .ok ⟨⟨7, 0⟩, c⟩

theorem claim_C1_bounded_retry_success_witness :
    Entry.execute c1Conn (.name "alice") none (some fun c => c + 1) 2 =
      { result := .ok (some ⟨⟨1, 99⟩, 21⟩),
        updateCalls := (List.range 3).map fun k => (c1Docs k).contents,
        insertCalls := 0, pushCalls := [] } ∧
    ((List.range 3).map fun k => (c1Docs k).contents).length ≤ 3 := by
  have h := claim_C1_bounded_retry_success c1Conn (.name "alice") none
    (fun c => c + 1) (fun _ => "users") (fun k => ⟨1, k⟩) c1Docs ⟨1, 99⟩ 2
    rfl
    (fun k hk d => by simp [c1Conn, hk])
    (fun k hk => rfl)
    (fun d => rfl)
  simpa [c1Docs] using h

/-- C2: inside the update loop, if a write attempt conflicts while retry
budget remains and the subsequent reload by the conflict header's id finds no
document, the loop — and hence the orchestrator — returns the empty result
(no document, no error). -/
theorem claim_C2_deleted_during_retry {C : Type} (conn : EntryConnection C)
    (u : C → C) :
    (∀ (a n : Nat) (existing : CollectionDocument C) (collection : String)
        (header : Header),
      conn.write a { existing with contents := u existing.contents } =
          .error (.documentConflict collection header) →
      conn.reload a header.id = .ok none →
      updateLoop conn u a (n + 1) existing = (.ok none, [existing.contents])) ∧
    (∀ (nameRef : NamedReference) (ins : Option (Unit → C)) (n : Nat)
        (existing : CollectionDocument C) (collection : String) (header : Header),
      conn.load nameRef = .ok (some existing) →
      conn.write 0 { existing with contents := u existing.contents } =
          .error (.documentConflict collection header) →
      conn.reload 0 header.id = .ok none →
      Entry.execute conn nameRef ins (some u) (n + 1) =
        { result := .ok none, updateCalls := [existing.contents],
          insertCalls := 0, pushCalls := [] }) := by
  have hloop : ∀ (a n : Nat) (existing : CollectionDocument C)
      (collection : String) (header : Header),
      conn.write a { existing with contents := u existing.contents } =
          .error (.documentConflict collection header) →
      conn.reload a header.id = .ok none →
      updateLoop conn u a (n + 1) existing = (.ok none, [existing.contents]) := by
    intro a n existing collection header hw hr
    simp [updateLoop, hw, hr]
  refine ⟨hloop, ?_⟩
  intro nameRef ins n existing collection header hload hw hr
  simp [Entry.execute, hload, hloop 0 n existing collection header hw hr]

/-- Concrete oracle for the C2 witness: the only write conflicts and the
reload finds the document deleted. -/
def c2Conn : EntryConnection Nat where
  load := fun _ => .ok (some ⟨⟨1, 0⟩, 5⟩)
  write := fun _ _ => .error (.documentConflict "users" ⟨1, 1⟩)
  reload := fun _ _ => .ok none
  push := fun c => .ok ⟨⟨7, 0⟩, c⟩

theorem claim_C2_deleted_during_retry_witness :
    updateLoop c2Conn (fun c => c + 1) 0 3 ⟨⟨1, 0⟩, 5⟩ = (.ok none, [5]) ∧
    Entry.execute c2Conn (.name "alice") none (some fun c => c + 1) 3 =
      { result := .ok none, updateCalls := [5], insertCalls := 0,
        pushCalls := [] } :=
  ⟨(claim_C2_deleted_during_retry c2Conn (fun c => c + 1)).1 0 2 ⟨⟨1, 0⟩, 5⟩
      "users" ⟨1, 1⟩ rfl rfl,
    (claim_C2_deleted_during_retry c2Conn (fun c => c + 1)).2 (.name "alice")
      none 2 ⟨⟨1, 0⟩, 5⟩ "users" ⟨1, 1⟩ rfl rfl rfl⟩

/-- C3: inside the update loop, a conflict with the budget exhausted is
surfaced carrying the conflict's collection and current header, and any
non-conflict error returned by the write aborts the loop immediately and is
returned unchanged, whatever budget remains. -/
theorem claim_C3_error_propagation {C : Type} (conn : EntryConnection C)
    (u : C → C) :
    (∀ (a : Nat) (existing : CollectionDocument C) (collection : String)
        (header : Header),
      conn.write a { existing with contents := u existing.contents } =
          .error (.documentConflict collection header) →
      updateLoop conn u a 0 existing =
        (.error (.documentConflict collection header), [existing.contents])) ∧
    (∀ (a b : Nat) (existing : CollectionDocument C) (e : DbError),
      conn.write a { existing with contents := u existing.contents } = .error e →
      (∀ collection header, e ≠ .documentConflict collection header) →
      updateLoop conn u a b existing = (.error e, [existing.contents])) := by
  constructor
  · intro a existing collection header hw
    simp [updateLoop, hw]
  · intro a b existing e hw hne
    cases e with
    | documentConflict collection header =>
      exact absurd rfl (hne collection header)
    | serialization message => simp [updateLoop, hw]
    | other message => simp [updateLoop, hw]

/-- Concrete oracle for the C3 witness: the write conflicts (used with an
exhausted budget) and a second oracle returns a serialization error. -/
def c3ConnOther : EntryConnection Nat where
  load := fun _ => .ok (some ⟨⟨1, 0⟩, 5⟩)
  write := fun _ _ => .error (.serialization "bad bytes")
  reload := fun _ _ => .ok none
  push := fun c => .ok ⟨⟨7, 0⟩, c⟩

theorem claim_C3_error_propagation_witness :
    updateLoop c2Conn (fun c => c + 1) 0 0 ⟨⟨1, 0⟩, 5⟩ =
      (.error (.documentConflict "users" ⟨1, 1⟩), [5]) ∧
    updateLoop c3ConnOther (fun c => c + 1) 0 4 ⟨⟨1, 0⟩, 5⟩ =
      (.error (.serialization "bad bytes"), [5]) :=
  ⟨(claim_C3_error_propagation c2Conn (fun c => c + 1)).1 0 ⟨⟨1, 0⟩, 5⟩
      "users" ⟨1, 1⟩ rfl,
    (claim_C3_error_propagation c3ConnOther (fun c => c + 1)).2 0 4 ⟨⟨1, 0⟩, 5⟩
      (.serialization "bad bytes") rfl (by intro collection header h; cases h)⟩

/-- C4: the orchestrator's non-retry cases.  Found with no update-mutator:
the document is returned unchanged and no conditioned write or push is
issued.  Not found with an insert-producer: the producer runs exactly once,
its output is pushed, and the resulting document is returned.  Not found
with no insert-producer: the empty result. -/
theorem claim_C4_non_retry_cases {C : Type} (conn : EntryConnection C)
    (nameRef : NamedReference) :
    (∀ (existing : CollectionDocument C) (ins : Option (Unit → C))
        (retryLimit : Nat),
      conn.load nameRef = .ok (some existing) →
      Entry.execute conn nameRef ins none retryLimit =
        { result := .ok (some existing), updateCalls := [], insertCalls := 0,
          pushCalls := [] }) ∧
    (∀ (f : Unit → C) (upd : Option (C → C)) (retryLimit : Nat)
        (doc : CollectionDocument C),
      conn.load nameRef = .ok none →
      conn.push (f ()) = .ok doc →
      Entry.execute conn nameRef (some f) upd retryLimit =
        { result := .ok (some doc), updateCalls := [], insertCalls := 1,
          pushCalls := [f ()] }) ∧
    (∀ (upd : Option (C → C)) (retryLimit : Nat),
      conn.load nameRef = .ok none →
      Entry.execute conn nameRef none upd retryLimit =
        { result := .ok none, updateCalls := [], insertCalls := 0,
          pushCalls := [] }) := by
  refine ⟨?_, ?_, ?_⟩
  · intro existing ins retryLimit hload
    simp [Entry.execute, hload]
  · intro f upd retryLimit doc hload hpush
    simp [Entry.execute, hload, hpush]
  · intro upd retryLimit hload
    simp [Entry.execute, hload]

/-- Concrete oracle for the C4 witness: "alice" present, "bob" absent. -/
def c4Conn : EntryConnection Nat where
  load := fun r => if r = .name "alice" then .ok (some ⟨⟨1, 0⟩, 5⟩) else .ok none
  write := fun _ _ => .error (.serialization "unused")
  reload := fun _ _ => .ok none
  push := fun c => .ok ⟨⟨7, 0⟩, c⟩

theorem claim_C4_non_retry_cases_witness :
    Entry.execute c4Conn (.name "alice") (some fun _ => 3) none 4 =
      { result := .ok (some ⟨⟨1, 0⟩, 5⟩), updateCalls := [],
        insertCalls := 0, pushCalls := [] } ∧
    Entry.execute c4Conn (.name "bob") (some fun _ => 3) none 4 =
      { result := .ok (some ⟨⟨7, 0⟩, 3⟩), updateCalls := [],
        insertCalls := 1, pushCalls := [3] } ∧
    Entry.execute c4Conn (.name "bob") none none 4 =
      { result := .ok none, updateCalls := [], insertCalls := 0,
        pushCalls := [] } :=
  ⟨(claim_C4_non_retry_cases c4Conn (.name "alice")).1 ⟨⟨1, 0⟩, 5⟩
      (some fun _ => 3) 4 rfl,
    (claim_C4_non_retry_cases c4Conn (.name "bob")).2.1 (fun _ => 3) none 4
      ⟨⟨7, 0⟩, 3⟩ rfl rfl,
    (claim_C4_non_retry_cases c4Conn (.name "bob")).2.2 none 4 rfl⟩

/-- C10: `NamedCollection::entry` leaves the retry budget at zero unless
`retry_limit` is called: with an update-mutator configured and no
`retry_limit` call, the very first conflict returned by the conditioned
write is surfaced as an error, the mutator having run exactly once. -/
theorem claim_C10_default_retry_budget_zero {C : Type}
    (conn : EntryConnection C) (nameRef : NamedReference) (u : C → C) :
    ((NamedCollection.entry nameRef : EntryBuilder C).update_with u).retry_limit
        = 0 ∧
    (∀ (existing : CollectionDocument C) (collection : String) (header : Header),
      conn.load nameRef = .ok (some existing) →
      conn.write 0 { existing with contents := u existing.contents } =
          .error (.documentConflict collection header) →
      ((NamedCollection.entry nameRef).update_with u).run conn =
        { result := .error (.documentConflict collection header),
          updateCalls := [existing.contents], insertCalls := 0,
          pushCalls := [] }) := by
  refine ⟨rfl, ?_⟩
  intro existing collection header hload hw
  simp [NamedCollection.entry, EntryBuilder.update_with, EntryBuilder.run,
    Entry.execute, hload, updateLoop, hw]

theorem claim_C10_default_retry_budget_zero_witness :
    ((NamedCollection.entry (.name "alice") : EntryBuilder Nat).update_with
        (fun c => c + 1)).retry_limit = 0 ∧
    ((NamedCollection.entry (.name "alice")).update_with (fun c => c + 1)).run
        c2Conn =
      { result := .error (.documentConflict "users" ⟨1, 1⟩),
        updateCalls := [5], insertCalls := 0, pushCalls := [] } :=
  ⟨(claim_C10_default_retry_budget_zero c2Conn (.name "alice")
      (fun c => c + 1)).1,
    (claim_C10_default_retry_budget_zero c2Conn (.name "alice")
      (fun c => c + 1)).2 ⟨⟨1, 0⟩, 5⟩ "users" ⟨1, 1⟩ rfl rfl⟩

/-- C5: for every configuration (namespace, key, direction, amount, and
whether `allow_overflow` was called), the blocking builder's `execute` and
the suspend/resume builder's `poll` submit the identical `KeyOperation` and
map the connection's output to the identical outcome. -/
theorem claim_C5_blocking_async_equivalence {V : Type} (kv : KvConnection)
    (tryFrom : Numeric → Option V) (ns : Option String) (increment : Bool)
    (key : String) (amount : Numeric) :
    ((AsyncBuilder.new V ns increment key amount).poll kv tryFrom).2 =
      (Builder.new V ns increment key amount).execute kv tryFrom ∧
    (∀ ab, (AsyncBuilder.new V ns increment key amount).allow_overflow = some ab →
      (ab.poll kv tryFrom).2 =
        ((Builder.new V ns increment key amount).allow_overflow).execute kv
          tryFrom) := by
  constructor
  · rfl
  · intro ab hab
    simp only [AsyncBuilder.allow_overflow, AsyncBuilder.new,
      Option.some.injEq] at hab
    subst hab
    rfl

theorem claim_C5_blocking_async_equivalence_witness :
    (AsyncBuilder.new Numeric none true "hits"
        (.unsignedInteger 1)).allow_overflow =
      some (AsyncBuilder.mk (.pending (some
        { ns := none, key := "hits", increment := true,
          amount := .unsignedInteger 1, saturating := false }))) ∧
    ((AsyncBuilder.mk (V := Numeric) (.pending (some
        { ns := none, key := "hits", increment := true,
          amount := .unsignedInteger 1, saturating := false }))).poll
        (fun _ => .ok (.value (some (.numeric (.unsignedInteger 4))))) some).2 =
      ((Builder.new Numeric none true "hits"
          (.unsignedInteger 1)).allow_overflow).execute
        (fun _ => .ok (.value (some (.numeric (.unsignedInteger 4))))) some :=
  ⟨rfl,
    (claim_C5_blocking_async_equivalence
      (fun _ => .ok (.value (some (.numeric (.unsignedInteger 4))))) some
      none true "hits" (.unsignedInteger 1)).2 _ rfl⟩

/-- C6: both builders are constructed with `saturating = true`; each
execution submits exactly one `KeyOperation` whose command is
`Increment { amount, saturating }` or `Decrement { amount, saturating }`;
and calling `allow_overflow` before execution flips the saturating flag in
the submitted command to `false`. -/
theorem claim_C6_saturating_default_and_flip {V : Type} (kv : KvConnection)
    (tryFrom : Numeric → Option V) (ns : Option String) (increment : Bool)
    (key : String) (amount : Numeric) :
    (Builder.new V ns increment key amount).saturating = true ∧
    AsyncBuilder.new V ns increment key amount =
      { state := .pending (some { ns := ns, key := key, increment := increment,
                                  amount := amount, saturating := true }) } ∧
    (∀ b : Builder V, (b.execute kv tryFrom).1 =
      [{ ns := b.ns, key := b.key,
         command :=
           if b.increment then Command.increment b.amount b.saturating
           else Command.decrement b.amount b.saturating }]) ∧
    ((Builder.new V ns increment key amount).allow_overflow).saturating = false ∧
    (AsyncBuilder.new V ns increment key amount).allow_overflow =
      some { state := .pending (some { ns := ns, key := key,
                                       increment := increment, amount := amount,
                                       saturating := false }) } ∧
    (∀ opts : Options V,
      ((AsyncBuilder.mk (.pending (some opts))).poll kv tryFrom).2.1 =
        [{ ns := opts.ns, key := opts.key,
           command :=
             if opts.increment then Command.increment opts.amount opts.saturating
             else Command.decrement opts.amount opts.saturating }]) :=
  ⟨rfl, rfl, fun _ => rfl, rfl, rfl, fun _ => rfl⟩

/-- C7: if the connection returns `Ok` with an output that is not a numeric
value convertible to the requested type, both execution models panic (fatal)
rather than returning a recoverable error; when the output is a convertible
numeric value, both return `Ok` with the converted value and neither panic
branch is taken. -/
theorem claim_C7_type_mismatch_fatal {V : Type} (tryFrom : Numeric → Option V)
    (b : Builder V) (opts : Options V) (out : Output) :
    ((¬ ∃ n x, out = .value (some (.numeric n)) ∧ tryFrom n = some x) →
      ∃ msg,
        (b.execute (fun _ => .ok out) tryFrom).2 = .panicked msg ∧
        ((AsyncBuilder.mk (.pending (some opts))).poll (fun _ => .ok out)
            tryFrom).2.2 = .panicked msg) ∧
    (∀ n x, out = .value (some (.numeric n)) → tryFrom n = some x →
      (b.execute (fun _ => .ok out) tryFrom).2 = .ok x ∧
      ((AsyncBuilder.mk (.pending (some opts))).poll (fun _ => .ok out)
          tryFrom).2.2 = .ok x) := by
  constructor
  · intro hne
    match out with
    | .status s =>
      exact ⟨"Unexpected result from key value operation", rfl, rfl⟩
    | .value none =>
      exact ⟨"Unexpected result from key value operation", rfl, rfl⟩
    | .value (some (.bytes bs)) =>
      exact ⟨"Unexpected result from key value operation", rfl, rfl⟩
    | .value (some (.numeric n)) =>
      match htf : tryFrom n with
      | some x => exact absurd ⟨n, x, rfl, htf⟩ hne
      | none =>
        refine ⟨"server should send back identical type", ?_, ?_⟩ <;>
          simp [Builder.execute, AsyncBuilder.poll, htf]
  · intro n x hout htf
    subst hout
    constructor <;> simp [Builder.execute, AsyncBuilder.poll, htf]

theorem claim_C7_type_mismatch_fatal_witness :
    (∃ msg,
      ((Builder.new Numeric none true "hits" (.unsignedInteger 1)).execute
          (fun _ => .ok (.status true)) some).2 = .panicked msg ∧
      ((AsyncBuilder.mk (.pending (some
            { ns := none, key := "hits", increment := true,
              amount := .unsignedInteger 1, saturating := true }))).poll
          (fun _ => .ok (.status true)) some).2.2 = .panicked msg) ∧
    (((Builder.new Numeric none true "hits" (.unsignedInteger 1)).execute
        (fun _ => .ok (.value (some (.numeric (.unsignedInteger 5))))) some).2 =
          .ok (.unsignedInteger 5) ∧
      ((AsyncBuilder.mk (.pending (some
            { ns := none, key := "hits", increment := true,
              amount := .unsignedInteger 1, saturating := true }))).poll
          (fun _ => .ok (.value (some (.numeric (.unsignedInteger 5)))))
          some).2.2 = .ok (.unsignedInteger 5)) :=
  ⟨(claim_C7_type_mismatch_fatal some
      (Builder.new Numeric none true "hits" (.unsignedInteger 1))
      { ns := none, key := "hits", increment := true,
        amount := .unsignedInteger 1, saturating := true } (.status true)).1
      (by rintro ⟨n, x, h, -⟩; cases h),
    (claim_C7_type_mismatch_fatal some
      (Builder.new Numeric none true "hits" (.unsignedInteger 1))
      { ns := none, key := "hits", increment := true,
        amount := .unsignedInteger 1, saturating := true }
      (.value (some (.numeric (.unsignedInteger 5))))).2
      (.unsignedInteger 5) (.unsignedInteger 5) rfl rfl⟩

/-- C8: resolving a `NamedReference::Name` in `load_document` issues exactly
one query, against the collection's unique-name view keyed by that name, and
takes the first returned record without verifying that at most one record
matches; when the view state holds two records for the same name, the first
is used and the rest are silently ignored. -/
theorem claim_C8_name_resolution_first_match (conn : NamedConnection)
    (n : String) (records : List (String × OwnedDocument))
    (hq : conn.viewQueryWithDocs n = .ok records) :
    NamedCollection.load_document conn (.name n) =
      (.ok (records.head?.map Prod.snd), [n]) ∧
    (∀ (d1 d2 : OwnedDocument) (rest : List (String × OwnedDocument)),
      records = (n, d1) :: (n, d2) :: rest →
      (NamedCollection.load_document conn (.name n)).1 = .ok (some d1)) := by
  constructor
  · simp [NamedCollection.load_document, hq]
  · intro d1 d2 rest hrec
    subst hrec
    simp [NamedCollection.load_document, hq]

/-- Concrete oracle for the C8 witness: the unique-name view for "alice"
holds two records. -/
def c8Conn : NamedConnection where
  get := fun _ => .ok none
  viewQueryWithDocs := fun s =>
    if s = "alice" then
      .ok [("alice", ⟨1, 0, [10]⟩), ("alice", ⟨2, 0, [20]⟩)]
    else .ok []

theorem claim_C8_name_resolution_first_match_witness :
    NamedCollection.load_document c8Conn (.name "alice") =
      (.ok (some ⟨1, 0, [10]⟩), ["alice"]) ∧
    (NamedCollection.load_document c8Conn (.name "alice")).1 =
      .ok (some ⟨1, 0, [10]⟩) := by
  have h := claim_C8_name_resolution_first_match c8Conn "alice"
    [("alice", ⟨1, 0, [10]⟩), ("alice", ⟨2, 0, [20]⟩)] (by simp [c8Conn])
  exact ⟨by simpa using h.1, h.2 ⟨1, 0, [10]⟩ ⟨2, 0, [20]⟩ [] rfl⟩

/-- C9: the emission helpers are convenience constructors for a `Map`
record: `emit()` equals `emit_key_and_value((), ())`, `emit_key(k)` equals
`emit_key_and_value(k, ())`, `emit_value(v)` equals
`emit_key_and_value((), v)`, and `emit_key_and_value(k, v)` is the record
`{ source: d.id, key: k, value: v }`, so every emitted record's source is
the id of the document that produced it. -/
theorem claim_C9_emission_identities {K V : Type} (d : Document) (k : K)
    (v : V) :
    d.emit = d.emit_key_and_value () () ∧
    d.emit_key k = d.emit_key_and_value k () ∧
    d.emit_value v = d.emit_key_and_value () v ∧
    d.emit_key_and_value k v = { source := d.id, key := k, value := v } ∧
    (d.emit_key_and_value k v).source = d.id :=
  ⟨rfl, rfl, rfl, rfl, rfl⟩
